import Mathlib

/-!
Verification of the Continuum license-envelope codec and tamper-evident
usage ledger (files `c3_dashboard.py` and `logger.py`).

Modelling conventions:
* bytes are `Nat`s; byte strings are `List Nat`;
* the SHA-256 block function and the HMAC-SHA256 hex digest are external
  library primitives (`hashlib`, `hmac`), so they appear as explicit
  function parameters (`sha256 : List Nat → List Nat`,
  `hmacHex : List Nat → List Nat → String`); every theorem quantifies
  over them, adding only the structural facts the code relies on
  (digests are nonempty byte blocks, hex digests carry no surrounding
  whitespace);
* JSON serialization (`json.dumps` / `json.loads`) is likewise a
  parameter pair `ser` / `deser`;
* `os.urandom` nonces and wall-clock timestamps enter as explicit
  arguments.
-/

deriving instance DecidableEq for Except

namespace Continuum

/-- Big-endian 8-byte encoding of a block counter, as in
`counter.to_bytes(8, "big")` inside `_keystream`. -/
def toBytes8 (n : Nat) : List Nat :=
  [n / 2 ^ 56 % 256, n / 2 ^ 48 % 256, n / 2 ^ 40 % 256, n / 2 ^ 32 % 256,
   n / 2 ^ 24 % 256, n / 2 ^ 16 % 256, n / 2 ^ 8 % 256, n % 256]

/-- Key derivation `_kdf_key`: a single hash of the UTF-8 secret. -/
def kdfKey (sha256 : List Nat → List Nat) (secret : List Nat) : List Nat :=
  sha256 secret

/-- Loop body of `_keystream`: extend `out` with hash blocks
`sha256(key ‖ nonce ‖ counter)` while it is shorter than `length`.
The Python loop runs until `len(out) >= length`; since every SHA-256
block is nonempty, `length` iterations always suffice, so the loop is
modelled with that much fuel. -/
def keystreamLoop (sha256 : List Nat → List Nat) (key nonce : List Nat) (length : Nat) :
    Nat → Nat → List Nat → List Nat
  | 0, _, out => out
  | fuel + 1, counter, out =>
    if out.length < length then
      keystreamLoop sha256 key nonce length fuel (counter + 1)
        (out ++ sha256 (key ++ nonce ++ toBytes8 counter))
    else out

/-- `_keystream(key, nonce, length)`: counter-mode hash keystream,
truncated to `length` bytes. -/
def keystream (sha256 : List Nat → List Nat) (key nonce : List Nat) (length : Nat) : List Nat :=
  (keystreamLoop sha256 key nonce length length 0 []).take length

/-- `_xor_stream(raw, secret, nonce)`: XOR `raw` against the keystream
derived from the secret and nonce. -/
def xorStream (sha256 : List Nat → List Nat) (raw : List Nat) (secret nonce : List Nat) :
    List Nat :=
  List.zipWith Nat.xor raw (keystream sha256 (kdfKey sha256 secret) nonce raw.length)

/-- ASCII lowercasing of one character, modelling Python `str.lower`
on the ASCII alphabet (the only characters appearing in hex digests). -/
def charToLower (c : Char) : Char :=
  if 'A' ≤ c ∧ c ≤ 'Z' then Char.ofNat (c.toNat + 32) else c

/-- Python `str.lower()` on ASCII text. -/
def pyLower (s : String) : String :=
  ⟨s.data.map charToLower⟩

/-- Python `str.strip()`: drop leading and trailing whitespace. -/
def pyStrip (s : String) : String :=
  ⟨((s.data.dropWhile Char.isWhitespace).reverse.dropWhile Char.isWhitespace).reverse⟩

/-- ASCII uppercasing of one character, modelling Python `str.upper`
on the ASCII alphabet. -/
def charToUpper (c : Char) : Char :=
  if 'a' ≤ c ∧ c ≤ 'z' then Char.ofNat (c.toNat - 32) else c

/-- Python `str.upper()` on ASCII text. -/
def pyUpper (s : String) : String :=
  ⟨s.data.map charToUpper⟩

/-- Wire envelope produced by `_encrypt_payload`: the nonce and
ciphertext are kept as decoded bytes (base64 transport is external),
the signature as the hex-digest string the code stores and compares. -/
structure Envelope where
  version : String
  nonce : List Nat
  ciphertext : List Nat
  signatureHex : String
deriving DecidableEq, Repr

/-- `_encrypt_payload(payload, secret)` with the fresh random nonce made
an explicit argument: serialize, XOR against the keystream, and sign
`nonce ‖ ciphertext` with HMAC of the derived key. -/
def encryptPayload {P : Type} (sha256 : List Nat → List Nat)
    (hmacHex : List Nat → List Nat → String) (ser : P → List Nat)
    (payload : P) (secret nonce : List Nat) : Envelope :=
  let plain := ser payload
  let ciphertext := xorStream sha256 plain secret nonce
  { version := "1.0"
    nonce := nonce
    ciphertext := ciphertext
    signatureHex := hmacHex (kdfKey sha256 secret) (nonce ++ ciphertext) }

/-- `_decrypt_payload(envelope, secret)`, instrumented: the `Bool`
component records whether the keystream/XOR stage was reached, so the
verify-then-decrypt ordering of the code is provable.  The stored
signature is normalized by `.strip().lower()` and compared against the
lowercased recomputed HMAC; only on a match is the ciphertext XORed
back and parsed. -/
def decryptPayloadT {P : Type} (sha256 : List Nat → List Nat)
    (hmacHex : List Nat → List Nat → String) (deser : List Nat → Option P)
    (envelope : Envelope) (secret : List Nat) : Except String P × Bool :=
  let nonce := envelope.nonce
  let ciphertext := envelope.ciphertext
  let sigHex := pyLower (pyStrip envelope.signatureHex)
  let expected := pyLower (hmacHex (kdfKey sha256 secret) (nonce ++ ciphertext))
  if expected == sigHex then
    (match deser (xorStream sha256 ciphertext secret nonce) with
      | some p => Except.ok p
      | none => Except.error "payload_parse_error", true)
  else
    (Except.error "signature_mismatch", false)

/-- Result component of `_decrypt_payload`. -/
def decryptPayload {P : Type} (sha256 : List Nat → List Nat)
    (hmacHex : List Nat → List Nat → String) (deser : List Nat → Option P)
    (envelope : Envelope) (secret : List Nat) : Except String P :=
  (decryptPayloadT sha256 hmacHex deser envelope secret).1

theorem keystreamLoop_length_ge (sha256 : List Nat → List Nat) (key nonce : List Nat)
    (length : Nat) (hblock : ∀ x, 0 < (sha256 x).length) :
    ∀ (fuel counter : Nat) (out : List Nat), length ≤ out.length + fuel →
      length ≤ (keystreamLoop sha256 key nonce length fuel counter out).length := by
  intro fuel
  induction fuel with
  | zero =>
    intro counter out h
    simpa [keystreamLoop] using h
  | succ n ih =>
    intro counter out h
    by_cases hlt : out.length < length
    · rw [keystreamLoop, if_pos hlt]
      apply ih
      have hb := hblock (key ++ nonce ++ toBytes8 counter)
      simp only [List.length_append]
      omega
    · rw [keystreamLoop, if_neg hlt]
      omega

theorem keystream_length (sha256 : List Nat → List Nat) (key nonce : List Nat) (length : Nat)
    (hblock : ∀ x, 0 < (sha256 x).length) :
    (keystream sha256 key nonce length).length = length := by
  have h := keystreamLoop_length_ge sha256 key nonce length hblock length 0 [] (by simp)
  simp only [keystream, List.length_take]
  omega

theorem zipWith_xor_cancel :
    ∀ (p ks : List Nat), p.length ≤ ks.length →
      List.zipWith Nat.xor (List.zipWith Nat.xor p ks) ks = p := by
  intro p
  induction p with
  | nil => intro ks _; simp
  | cons a l ih =>
    intro ks h
    cases ks with
    | nil => simp at h
    | cons b ks' =>
      simp only [List.zipWith]
      refine congrArg₂ List.cons ?_ (ih ks' (by simpa using h))
      show a ^^^ b ^^^ b = a
      rw [Nat.xor_assoc, Nat.xor_self, Nat.xor_zero]

theorem xorStream_length (sha256 : List Nat → List Nat) (raw secret nonce : List Nat)
    (hblock : ∀ x, 0 < (sha256 x).length) :
    (xorStream sha256 raw secret nonce).length = raw.length := by
  simp [xorStream, keystream_length sha256 _ nonce raw.length hblock]

theorem xorStream_involutive (sha256 : List Nat → List Nat) (raw secret nonce : List Nat)
    (hblock : ∀ x, 0 < (sha256 x).length) :
    xorStream sha256 (xorStream sha256 raw secret nonce) secret nonce = raw := by
  have hlen := xorStream_length sha256 raw secret nonce hblock
  have hks : (keystream sha256 (kdfKey sha256 secret) nonce raw.length).length = raw.length :=
    keystream_length sha256 _ nonce raw.length hblock
  show List.zipWith Nat.xor (xorStream sha256 raw secret nonce)
      (keystream sha256 (kdfKey sha256 secret) nonce
        (xorStream sha256 raw secret nonce).length) = raw
  rw [hlen]
  unfold xorStream
  exact zipWith_xor_cancel raw _ hks.ge

/-- C1: for every payload, secret and nonce, decrypting the envelope
produced by `_encrypt_payload` with the same secret recovers the
original payload, for every hash/HMAC primitive whose digest blocks are
nonempty and whose hex digests carry no surrounding whitespace, and
every serializer pair that round-trips the payload. -/
theorem c1_encrypt_decrypt_roundtrip {P : Type} (sha256 : List Nat → List Nat)
    (hmacHex : List Nat → List Nat → String) (ser : P → List Nat)
    (deser : List Nat → Option P) (payload : P) (secret nonce : List Nat)
    (hblock : ∀ x, 0 < (sha256 x).length)
    (htrim : ∀ k m, pyStrip (hmacHex k m) = hmacHex k m)
    (hser : deser (ser payload) = some payload) :
    decryptPayload sha256 hmacHex deser
      (encryptPayload sha256 hmacHex ser payload secret nonce) secret
      = Except.ok payload := by
  unfold decryptPayload decryptPayloadT encryptPayload
  simp only [htrim, beq_self_eq_true, if_pos]
  rw [xorStream_involutive sha256 (ser payload) secret nonce hblock, hser]

/-- Concrete round-trip instance of `c1_encrypt_decrypt_roundtrip`. -/
theorem c1_roundtrip_witness :
    decryptPayload (fun _ => [7]) (fun _ _ => "ab") (fun l => some l)
      (encryptPayload (fun _ => [7]) (fun _ _ => "ab") (fun l : List Nat => l)
        [5, 6] [9] [4]) [9]
      = Except.ok [5, 6] :=
  c1_encrypt_decrypt_roundtrip (fun _ => [7]) (fun _ _ => "ab") (fun l : List Nat => l)
    (fun l => some l) [5, 6] [9] [4] (fun _ => by simp)
    (fun _ _ => (by decide : pyStrip "ab" = "ab")) rfl

/-- Flip bit `b` of a character's code point. -/
def flipCharBit (c : Char) (b : Nat) : Char :=
  Char.ofNat (Nat.xor c.toNat (2 ^ b))

/-- Flip bit `b` of the `i`-th character of a string. -/
def flipStringBit (s : String) (i b : Nat) : String :=
  ⟨s.data.mapIdx (fun j c => if j = i then flipCharBit c b else c)⟩

/-- Degenerate but structurally valid hash primitive used for concrete
evaluation: every digest is the single byte 0. -/
def shaConst : List Nat → List Nat := fun _ => [0]

/-- Concrete HMAC instance whose hex digest is the fixed string "aa". -/
def hmacConstAA : List Nat → List Nat → String := fun _ _ => "aa"

/-- Concrete deserializer mapping every byte string to payload 0. -/
def deserConst : List Nat → Option Nat := fun _ => some 0

/-- Concrete serializer producing the empty byte string. -/
def serConst : Nat → List Nat := fun _ => []

/-- Concrete envelope for payload 0 under `shaConst`/`hmacConstAA`. -/
def c2Envelope : Envelope :=
  encryptPayload shaConst hmacConstAA serConst 0 [] []

/-- `c2Envelope` with bit 5 of the first signature character flipped
('a', code 0x61, becomes 'A', code 0x41). -/
def c2Tampered : Envelope :=
  { c2Envelope with signatureHex := flipStringBit c2Envelope.signatureHex 0 5 }

/-- C2 counterexample: flipping a single bit of `signature_hex` (bit 5
of the first character, turning 'a' into 'A') yields a different
envelope on which `_decrypt_payload` still succeeds, because the stored
signature is passed through `.lower()` before the comparison; so a
single-bit flip in `signature_hex` does not always fail with a
signature mismatch. -/
theorem c2_case_flip_not_detected :
    c2Tampered.signatureHex ≠ c2Envelope.signatureHex
    ∧ c2Tampered.signatureHex = "Aa"
    ∧ c2Envelope.signatureHex = "aa"
    ∧ decryptPayload shaConst hmacConstAA deserConst c2Tampered [] = Except.ok 0 := by
  decide

/-- C2 (amended): any alteration of the envelope after which the
normalized (stripped, lowercased) stored signature differs from the
lowercased recomputed HMAC over nonce ‖ ciphertext — every bit flip of
`ciphertext_b64` or `signature_hex` that changes those normalized
values, but not the case bit of a hex letter in `signature_hex` —
makes `_decrypt_payload` fail with `signature_mismatch`, and the
keystream/XOR stage is never reached (verify-then-decrypt). -/
theorem c2_tamper_rejected_before_keystream {P : Type} (sha256 : List Nat → List Nat)
    (hmacHex : List Nat → List Nat → String) (deser : List Nat → Option P)
    (env : Envelope) (secret : List Nat)
    (hmismatch : pyLower (pyStrip env.signatureHex)
      ≠ pyLower (hmacHex (kdfKey sha256 secret) (env.nonce ++ env.ciphertext))) :
    decryptPayloadT sha256 hmacHex deser env secret
      = (Except.error "signature_mismatch", false) := by
  have h : ¬ ((pyLower (hmacHex (kdfKey sha256 secret) (env.nonce ++ env.ciphertext))
      == pyLower (pyStrip env.signatureHex)) = true) := by
    simp only [beq_iff_eq]
    exact fun hx => hmismatch hx.symm
  simp only [decryptPayloadT]
  rw [if_neg h]

/-- Concrete instance of `c2_tamper_rejected_before_keystream`: a
signature of "zz" against an expected digest of "aa" is rejected
without decryption. -/
theorem c2_tamper_rejected_witness :
    decryptPayloadT shaConst hmacConstAA deserConst
      { version := "1.0", nonce := [], ciphertext := [], signatureHex := "zz" } []
      = (Except.error "signature_mismatch", false) :=
  c2_tamper_rejected_before_keystream shaConst hmacConstAA deserConst
    { version := "1.0", nonce := [], ciphertext := [], signatureHex := "zz" } []
    (by decide)

/-- One row of the `usage_events` table, as inserted by
`DataLogger._append_usage_event`. -/
structure UsageEvent where
  event_id : String
  event_type : String
  ts_utc : String
  month : String
  day : String
  decision_state : String
  mode : String
  reason_code : String
  llm_used : Bool
  cache_hit : Bool
  latency_ms : Option Int
  heartbeat_counter : Nat
  heartbeat_sig : String
deriving DecidableEq, Repr

/-- The `usage_meta` singleton rows relevant to the heartbeat chain.
In the store the integer values are kept as strings and re-parsed with
a default of 0; a fresh database has no rows, which the accessors read
as 0 / the empty string. -/
structure LedgerMeta where
  total_events : Nat
  heartbeat_counter : Nat
  last_event_id : String
  last_event_ts : String
  last_heartbeat_sig : String
deriving DecidableEq, Repr

/-- Combined state of the usage store: the `usage_events` rows in
insertion order plus the `usage_meta` rows. -/
structure LedgerState where
  events : List UsageEvent
  meta : LedgerMeta
deriving DecidableEq, Repr

/-- State of a freshly initialized usage database. -/
def emptyLedger : LedgerState :=
  { events := []
    meta := { total_events := 0
              heartbeat_counter := 0
              last_event_id := ""
              last_event_ts := ""
              last_heartbeat_sig := "" } }

/-- Arguments of one `_append_usage_event` call, with the
caller-computed timestamp and date keys made explicit. -/
structure EventInput where
  event_id : String
  event_type : String
  ts : String
  month : String
  day : String
  decision_state : String
  mode : String
  reason_code : String
  llm_used : Bool
  cache_hit : Bool
  latency_ms : Option Int
deriving DecidableEq, Repr

/-- `DataLogger._heartbeat_signature`: HMAC of
`"{total_events}|{counter}|{event_id}|{ts_utc}"` under the usage
signing key; `mac` abstracts `hmac.new(·, ·, sha256).hexdigest()`. -/
def heartbeatSignature (mac : String → String → String) (key : String)
    (total_events counter : Nat) (event_id ts_utc : String) : String :=
  mac key s!"{total_events}|{counter}|{event_id}|{ts_utc}"

/-- Successful body of `DataLogger._append_usage_event`: read the meta
counters, increment both, sign the chain position, insert the event row
and mirror the last-event fields into `usage_meta`, all in one
transaction. -/
def appendUsageEvent (mac : String → String → String) (key : String)
    (st : LedgerState) (e : EventInput) : LedgerState :=
  let total_events := st.meta.total_events + 1
  let counter := st.meta.heartbeat_counter + 1
  let hbSig := heartbeatSignature mac key total_events counter e.event_id e.ts
  { events := st.events ++
      [{ event_id := e.event_id, event_type := e.event_type, ts_utc := e.ts,
         month := e.month, day := e.day,
         decision_state := pyUpper e.decision_state, mode := e.mode,
         reason_code := e.reason_code, llm_used := e.llm_used,
         cache_hit := e.cache_hit, latency_ms := e.latency_ms,
         heartbeat_counter := counter, heartbeat_sig := hbSig }],
    meta := { total_events := total_events
              heartbeat_counter := counter
              last_event_id := e.event_id
              last_event_ts := e.ts
              last_heartbeat_sig := hbSig } }

/-- `_append_usage_event` including its exception handler: a storage
write failure anywhere inside the transaction rolls the connection back
(`conn.rollback()`), leaving the store unchanged, and the method
returns normally either way.  `storageFails` injects the failure. -/
def appendUsageEventTry (mac : String → String → String) (key : String)
    (st : LedgerState) (e : EventInput) (storageFails : Bool) : LedgerState :=
  if storageFails then st else appendUsageEvent mac key st e

/-- Sequential appends. -/
def appendAll (mac : String → String → String) (key : String)
    (st : LedgerState) (es : List EventInput) : LedgerState :=
  es.foldl (appendUsageEvent mac key) st

/-- Result dictionary of the chain checks (`_heartbeat_status` /
`_verify_heartbeat`); the two last-event fields are only present in the
verifying branch. -/
structure HeartbeatStatus where
  ok : Bool
  reason : String
  total_events : Nat
  heartbeat_counter : Nat
  last_event_id : Option String
  last_event_ts : Option String
deriving DecidableEq, Repr

/-- `DataLogger._heartbeat_status`: verify the `usage_meta` mirror of
the last event against `last_heartbeat_sig`.  Only `usage_meta` is
read; the `usage_events` rows are not consulted. -/
def heartbeatStatus (mac : String → String → String) (key : String)
    (st : LedgerState) : HeartbeatStatus :=
  let m := st.meta
  if m.last_event_id == "" then
    { ok := true, reason := "no_events", total_events := m.total_events,
      heartbeat_counter := m.heartbeat_counter,
      last_event_id := none, last_event_ts := none }
  else
    let expected := heartbeatSignature mac key m.total_events m.heartbeat_counter
      m.last_event_id m.last_event_ts
    let ok := (!(m.last_heartbeat_sig == "")) && (expected == m.last_heartbeat_sig)
    { ok := ok, reason := if ok then "ok" else "signature_mismatch",
      total_events := m.total_events, heartbeat_counter := m.heartbeat_counter,
      last_event_id := some m.last_event_id, last_event_ts := some m.last_event_ts }

/-- The dashboard's `_verify_heartbeat(meta, key)`: same chain check
over the `usage_meta` rows read from the database, with the dashboard's
string normalization (`strip` on the id/timestamp, `strip().lower()` on
the stored signature, `lower()` on the recomputed digest) and an extra
guard for a missing signing key. -/
def verifyHeartbeat (mac : String → String → String) (meta : LedgerMeta)
    (key : String) : HeartbeatStatus :=
  let last_event_id := pyStrip meta.last_event_id
  let last_event_ts := pyStrip meta.last_event_ts
  let last_sig := pyLower (pyStrip meta.last_heartbeat_sig)
  if last_event_id == "" then
    { ok := true, reason := "no_events", total_events := meta.total_events,
      heartbeat_counter := meta.heartbeat_counter,
      last_event_id := none, last_event_ts := none }
  else if key == "" then
    { ok := false, reason := "missing_signing_key", total_events := meta.total_events,
      heartbeat_counter := meta.heartbeat_counter,
      last_event_id := none, last_event_ts := none }
  else
    let expected := pyLower (heartbeatSignature mac key meta.total_events
      meta.heartbeat_counter last_event_id last_event_ts)
    let ok := (!(last_sig == "")) && (expected == last_sig)
    { ok := ok, reason := if ok then "ok" else "signature_mismatch",
      total_events := meta.total_events, heartbeat_counter := meta.heartbeat_counter,
      last_event_id := some last_event_id, last_event_ts := some last_event_ts }

theorem append_M_ne_empty (m : String) : ("M" ++ m : String) ≠ "" := by
  intro h
  have h2 := congrArg String.length h
  rw [String.length_append] at h2
  have h3 : ("M" : String).length = 1 := rfl
  have h4 : ("" : String).length = 0 := rfl
  omega

theorem appendAll_cons (mac : String → String → String) (key : String)
    (st : LedgerState) (e : EventInput) (es : List EventInput) :
    appendAll mac key st (e :: es) = appendAll mac key (appendUsageEvent mac key st e) es :=
  rfl

theorem appendAll_counters (mac : String → String → String) (key : String) :
    ∀ (es : List EventInput) (st : LedgerState),
      (appendAll mac key st es).events.map (fun e => e.heartbeat_counter)
        = st.events.map (fun e => e.heartbeat_counter)
          ++ List.range' (st.meta.heartbeat_counter + 1) es.length := by
  intro es
  induction es with
  | nil => intro st; simp [appendAll]
  | cons e tl ih =>
    intro st
    rw [appendAll_cons, ih]
    simp [appendUsageEvent, List.range']

theorem heartbeatStatus_after_append (mac : String → String → String) (key : String)
    (hne : ∀ k m, mac k m ≠ "") (st : LedgerState) (e : EventInput) :
    (heartbeatStatus mac key (appendUsageEvent mac key st e)).ok = true := by
  have hm : heartbeatSignature mac key (st.meta.total_events + 1)
      (st.meta.heartbeat_counter + 1) e.event_id e.ts ≠ "" := hne key _
  by_cases h : e.event_id = ""
  · simp [heartbeatStatus, appendUsageEvent, h]
  · simp [heartbeatStatus, appendUsageEvent, h, hm]

theorem appendAll_ok_or_id (mac : String → String → String) (key : String)
    (hne : ∀ k m, mac k m ≠ "") :
    ∀ (es : List EventInput) (st : LedgerState),
      (heartbeatStatus mac key (appendAll mac key st es)).ok = true
        ∨ appendAll mac key st es = st := by
  intro es
  induction es with
  | nil => intro st; exact Or.inr rfl
  | cons e tl ih =>
    intro st
    rw [appendAll_cons]
    rcases ih (appendUsageEvent mac key st e) with h | h
    · exact Or.inl h
    · rw [h]
      exact Or.inl (heartbeatStatus_after_append mac key hne st e)

/-- C3: appending N events sequentially to an empty ledger stores
heartbeat counters exactly 1..N, in order, with no gaps or repeats,
and the heartbeat status check on the resulting state reports ok. -/
theorem c3_chain_integrity (mac : String → String → String) (key : String)
    (es : List EventInput) (hne : ∀ k m, mac k m ≠ "") :
    (appendAll mac key emptyLedger es).events.map (fun e => e.heartbeat_counter)
      = List.range' 1 es.length
    ∧ (heartbeatStatus mac key (appendAll mac key emptyLedger es)).ok = true := by
  constructor
  · rw [appendAll_counters]
    simp [emptyLedger]
  · rcases appendAll_ok_or_id mac key hne es emptyLedger with h | h
    · exact h
    · rw [h]
      simp [heartbeatStatus, emptyLedger]

/-- Concrete instance of `c3_chain_integrity` for two appends. -/
theorem c3_chain_integrity_witness :
    ((appendAll (fun _ m => "M" ++ m) "k" emptyLedger
        [{ event_id := "a1", event_type := "analysis", ts := "t1", month := "2025-01",
           day := "20250101", decision_state := "ALLOW", mode := "", reason_code := "",
           llm_used := false, cache_hit := false, latency_ms := none },
         { event_id := "a2", event_type := "analysis", ts := "t2", month := "2025-01",
           day := "20250102", decision_state := "GUIDE", mode := "", reason_code := "",
           llm_used := true, cache_hit := false, latency_ms := some 5 }]).events.map
      (fun e => e.heartbeat_counter) = [1, 2])
    ∧ (heartbeatStatus (fun _ m => "M" ++ m) "k" (appendAll (fun _ m => "M" ++ m) "k"
        emptyLedger
        [{ event_id := "a1", event_type := "analysis", ts := "t1", month := "2025-01",
           day := "20250101", decision_state := "ALLOW", mode := "", reason_code := "",
           llm_used := false, cache_hit := false, latency_ms := none },
         { event_id := "a2", event_type := "analysis", ts := "t2", month := "2025-01",
           day := "20250102", decision_state := "GUIDE", mode := "", reason_code := "",
           llm_used := true, cache_hit := false, latency_ms := some 5 }])).ok = true := by
  have h := c3_chain_integrity (fun _ m => "M" ++ m) "k"
    [{ event_id := "a1", event_type := "analysis", ts := "t1", month := "2025-01",
       day := "20250101", decision_state := "ALLOW", mode := "", reason_code := "",
       llm_used := false, cache_hit := false, latency_ms := none },
     { event_id := "a2", event_type := "analysis", ts := "t2", month := "2025-01",
       day := "20250102", decision_state := "GUIDE", mode := "", reason_code := "",
       llm_used := true, cache_hit := false, latency_ms := some 5 }]
    (fun _ m => append_M_ne_empty m)
  exact ⟨h.1, h.2⟩

/-- C9: every append increments `total_events` and `heartbeat_counter`
together by exactly 1, so from any state where the two meta keys are
equal (in particular the empty ledger) they remain equal after every
sequence of appends. -/
theorem c9_total_events_tracks_counter (mac : String → String → String) (key : String)
    (es : List EventInput) (st : LedgerState)
    (h : st.meta.total_events = st.meta.heartbeat_counter) :
    ((appendAll mac key st es).meta.total_events
        = (appendAll mac key st es).meta.heartbeat_counter)
    ∧ (∀ (st' : LedgerState) (e : EventInput),
        (appendUsageEvent mac key st' e).meta.total_events = st'.meta.total_events + 1
        ∧ (appendUsageEvent mac key st' e).meta.heartbeat_counter
            = st'.meta.heartbeat_counter + 1) := by
  constructor
  · induction es generalizing st with
    | nil => exact h
    | cons e tl ih =>
      rw [appendAll_cons]
      exact ih _ (by simp [appendUsageEvent, h])
  · intro st' e
    exact ⟨rfl, rfl⟩

/-- Concrete instance of `c9_total_events_tracks_counter` starting from
the empty ledger. -/
theorem c9_witness :
    ((appendAll (fun _ m => "M" ++ m) "k" emptyLedger
        [{ event_id := "a1", event_type := "analysis", ts := "t1", month := "2025-01",
           day := "20250101", decision_state := "ALLOW", mode := "", reason_code := "",
           llm_used := false, cache_hit := false, latency_ms := none }]).meta.total_events
      = (appendAll (fun _ m => "M" ++ m) "k" emptyLedger
        [{ event_id := "a1", event_type := "analysis", ts := "t1", month := "2025-01",
           day := "20250101", decision_state := "ALLOW", mode := "", reason_code := "",
           llm_used := false, cache_hit := false, latency_ms := none }]).meta.heartbeat_counter) :=
  (c9_total_events_tracks_counter (fun _ m => "M" ++ m) "k"
    [{ event_id := "a1", event_type := "analysis", ts := "t1", month := "2025-01",
       day := "20250101", decision_state := "ALLOW", mode := "", reason_code := "",
       llm_used := false, cache_hit := false, latency_ms := none }] emptyLedger rfl).1

/-- C10: if the meta rows record at least one event (a nonempty
`last_event_id` after stripping) but the signing key is empty, the
dashboard's `_verify_heartbeat` reports `ok=false` with
`reason=missing_signing_key` without attempting a signature comparison
(the result is independent of the MAC primitive); with no recorded
events it reports `ok=true` with `reason=no_events` for every key. -/
theorem c10_verify_heartbeat_guards (mac mac2 : String → String → String)
    (meta : LedgerMeta) (hid : pyStrip meta.last_event_id ≠ "") :
    ((verifyHeartbeat mac meta "").ok = false
      ∧ (verifyHeartbeat mac meta "").reason = "missing_signing_key"
      ∧ verifyHeartbeat mac meta "" = verifyHeartbeat mac2 meta "")
    ∧ (∀ (meta2 : LedgerMeta) (key : String), pyStrip meta2.last_event_id = "" →
        (verifyHeartbeat mac meta2 key).ok = true
        ∧ (verifyHeartbeat mac meta2 key).reason = "no_events") := by
  constructor
  · refine ⟨?_, ?_, ?_⟩ <;> simp [verifyHeartbeat, hid]
  · intro meta2 key h
    constructor <;> simp [verifyHeartbeat, h]

/-- Concrete instance of `c10_verify_heartbeat_guards`. -/
theorem c10_witness :
    (verifyHeartbeat (fun _ m => "M" ++ m)
      { total_events := 1, heartbeat_counter := 1, last_event_id := "a1",
        last_event_ts := "t1", last_heartbeat_sig := "s1" } "").reason
      = "missing_signing_key" :=
  ((c10_verify_heartbeat_guards (fun _ m => "M" ++ m) (fun _ m => "N" ++ m)
    { total_events := 1, heartbeat_counter := 1, last_event_id := "a1",
      last_event_ts := "t1", last_heartbeat_sig := "s1" } (by decide)).1).2.1

/-- Concrete MAC primitive used for ledger counterexamples: the hex
digest is "M" followed by the signed message. -/
def macM : String → String → String := fun _ m => "M" ++ m

/-- A sample usage event. -/
def sampleEvent : EventInput :=
  { event_id := "a1", event_type := "analysis", ts := "2025-01-01T00:00:00Z",
    month := "2025-01", day := "20250101", decision_state := "ALLOW", mode := "",
    reason_code := "", llm_used := false, cache_hit := false, latency_ms := none }

/-- Ledger holding exactly one appended event. -/
def oneEventState : LedgerState := appendUsageEvent macM "k" emptyLedger sampleEvent

/-- `oneEventState` with the `ts_utc` field of its last (only) stored
`usage_events` row mutated, `usage_meta` left unchanged. -/
def oneEventStateRowTampered : LedgerState :=
  { oneEventState with
    events := oneEventState.events.map (fun e => { e with ts_utc := "1999-01-01T00:00:00Z" }) }

/-- C4 counterexample: mutating the `ts_utc` of the last stored
`usage_events` row while leaving `usage_meta` unchanged is NOT detected:
both the logger's `_heartbeat_status` and the dashboard's
`_verify_heartbeat` recompute the signature from the `usage_meta` rows
only and still report `ok=true`, not `signature_mismatch`. -/
theorem c4_row_tamper_not_detected :
    oneEventStateRowTampered.events ≠ oneEventState.events
    ∧ oneEventStateRowTampered.meta = oneEventState.meta
    ∧ (heartbeatStatus macM "k" oneEventStateRowTampered).ok = true
    ∧ (heartbeatStatus macM "k" oneEventStateRowTampered).reason = "ok"
    ∧ (verifyHeartbeat macM oneEventStateRowTampered.meta "k").ok = true := by
  decide

/-- C4 (amended): the chain check reads only `usage_meta`, so mutating
a stored event row alone goes undetected; what it does detect is
mutation of the mirrored meta fields: if `last_event_ts` is changed so
that the recomputed signature no longer equals `last_heartbeat_sig`,
`_heartbeat_status` returns `ok=false` with `reason=signature_mismatch`. -/
theorem c4_meta_tamper_detected (mac : String → String → String) (key ts2 : String)
    (st : LedgerState) (hid : st.meta.last_event_id ≠ "")
    (hdiff : heartbeatSignature mac key st.meta.total_events st.meta.heartbeat_counter
        st.meta.last_event_id ts2 ≠ st.meta.last_heartbeat_sig) :
    (heartbeatStatus mac key
        { st with meta := { st.meta with last_event_ts := ts2 } }).ok = false
    ∧ (heartbeatStatus mac key
        { st with meta := { st.meta with last_event_ts := ts2 } }).reason
        = "signature_mismatch" := by
  constructor <;> simp [heartbeatStatus, hid, hdiff]

/-- Concrete instance of `c4_meta_tamper_detected`: backdating
`last_event_ts` in `usage_meta` is flagged. -/
theorem c4_meta_tamper_witness :
    (heartbeatStatus macM "k"
      { oneEventState with
        meta := { oneEventState.meta with last_event_ts := "1999-01-01T00:00:00Z" } }).reason
      = "signature_mismatch" :=
  (c4_meta_tamper_detected macM "k" "1999-01-01T00:00:00Z" oneEventState
    (by decide) (by decide)).2

/-- Aggregates of `DataLogger._month_counts` for one month key:
analysis/error rows, feedback rows, and all rows of that month. -/
structure MonthCounts where
  analysis_count : Nat
  feedback_count : Nat
  total_events : Nat
deriving DecidableEq, Repr

/-- `DataLogger._month_counts(month_key)`. -/
def monthCounts (st : LedgerState) (month_key : String) : MonthCounts :=
  let evs := st.events.filter (fun e => e.month == month_key)
  { analysis_count := (evs.filter (fun e =>
      e.event_type == "analysis" || e.event_type == "error")).length
    feedback_count := (evs.filter (fun e => e.event_type == "feedback")).length
    total_events := evs.length }

/-- `DataLogger._month_decision_counts(month_key)`: decision-state
breakdown of the month's analysis/error rows (grouping order fixed to
first appearance). -/
def monthDecisionCounts (st : LedgerState) (month_key : String) : List (String × Nat) :=
  let evs := st.events.filter (fun e =>
    e.month == month_key && (e.event_type == "analysis" || e.event_type == "error"))
  ((evs.map (fun e => e.decision_state)).eraseDups).map
    (fun s => (s, (evs.filter (fun e => e.decision_state == s)).length))

/-- Payload written to `<month>.summary.json` by
`emit_signed_monthly_summary`. -/
structure MonthlySummary where
  schema_version : String
  month : String
  generated_at_utc : String
  counts : MonthCounts
  decision_counts : List (String × Nat)
  heartbeat : HeartbeatStatus
  content_free : Bool
  signature_algorithm : String
deriving DecidableEq, Repr

/-- Return value of `emit_signed_monthly_summary` together with the
payload written to `summary_path` and the signature written to
`sig_path`. -/
structure SummaryArtifact where
  month : String
  summary_path : String
  sig_path : String
  signature : String
  payload : MonthlySummary
deriving DecidableEq, Repr

/-- `DataLogger.emit_signed_monthly_summary(month)` over a fixed ledger
state; `canon` abstracts the canonical serialization
`_canonical_bytes` (sorted-key compact JSON) and `now` the
`generated_at_utc` wall-clock read. -/
def emitSignedMonthlySummary (mac : String → String → String)
    (canon : MonthlySummary → String) (key : String) (st : LedgerState)
    (month_key now : String) : SummaryArtifact :=
  let payload : MonthlySummary :=
    { schema_version := "1.0"
      month := month_key
      generated_at_utc := now
      counts := monthCounts st month_key
      decision_counts := monthDecisionCounts st month_key
      heartbeat := heartbeatStatus mac key st
      content_free := true
      signature_algorithm := "HMAC-SHA256" }
  { month := month_key
    summary_path := "logs/usage/" ++ month_key ++ ".summary.json"
    sig_path := "logs/usage/" ++ month_key ++ ".summary.sig"
    signature := mac key (canon payload)
    payload := payload }

/-- Concrete canonical serialization: the part of the sorted-key JSON
dump relevant here is that it embeds `generated_at_utc`. -/
def canonTs : MonthlySummary → String := fun p => p.month ++ "|" ++ p.generated_at_utc

/-- C5 counterexample: two finalize calls for the same month over the
same ledger state, made one second apart, embed different
`generated_at_utc` values, so the summary payloads — and, since the
canonical serialization covers that field, the signatures — differ:
the artifacts are not identical. -/
theorem c5_artifacts_differ :
    (emitSignedMonthlySummary macM canonTs "k" oneEventState "2025-01"
        "2025-02-01T00:00:00Z").payload
      ≠ (emitSignedMonthlySummary macM canonTs "k" oneEventState "2025-01"
        "2025-02-01T00:00:01Z").payload
    ∧ (emitSignedMonthlySummary macM canonTs "k" oneEventState "2025-01"
        "2025-02-01T00:00:00Z").signature
      ≠ (emitSignedMonthlySummary macM canonTs "k" oneEventState "2025-01"
        "2025-02-01T00:00:01Z").signature := by
  decide

/-- C5 (amended): finalize is a pure read of the ledger: two calls for
the same month over a fixed state agree on month, counts, decision
counts, heartbeat and artifact paths (so no events are double-counted
and the same files are overwritten), and produce identical artifacts
with the same signature exactly when they observe the same
`generated_at_utc` timestamp, which the signed payload embeds. -/
theorem c5_finalize_pure_read (mac : String → String → String)
    (canon : MonthlySummary → String) (key : String) (st : LedgerState)
    (month_key now1 now2 : String) :
    (emitSignedMonthlySummary mac canon key st month_key now1).payload.counts
      = (emitSignedMonthlySummary mac canon key st month_key now2).payload.counts
    ∧ (emitSignedMonthlySummary mac canon key st month_key now1).payload.decision_counts
      = (emitSignedMonthlySummary mac canon key st month_key now2).payload.decision_counts
    ∧ (emitSignedMonthlySummary mac canon key st month_key now1).payload.heartbeat
      = (emitSignedMonthlySummary mac canon key st month_key now2).payload.heartbeat
    ∧ (emitSignedMonthlySummary mac canon key st month_key now1).summary_path
      = (emitSignedMonthlySummary mac canon key st month_key now2).summary_path
    ∧ (emitSignedMonthlySummary mac canon key st month_key now1).sig_path
      = (emitSignedMonthlySummary mac canon key st month_key now2).sig_path
    ∧ (now1 = now2 →
        emitSignedMonthlySummary mac canon key st month_key now1
          = emitSignedMonthlySummary mac canon key st month_key now2) := by
  refine ⟨rfl, rfl, rfl, rfl, rfl, ?_⟩
  intro h
  rw [h]

/-- Concrete instance of `c5_finalize_pure_read`: with the same
timestamp the two artifacts coincide. -/
theorem c5_finalize_witness :
    emitSignedMonthlySummary macM canonTs "k" oneEventState "2025-01" "t"
      = emitSignedMonthlySummary macM canonTs "k" oneEventState "2025-01" "t" :=
  (c5_finalize_pure_read macM canonTs "k" oneEventState "2025-01" "t" "t").2.2.2.2.2 rfl

/-- Return value of `DataLogger.log_analysis`. -/
structure LogAnalysisResult where
  timestamp : String
  created_at : String
deriving DecidableEq, Repr

/-- `DataLogger.log_analysis`, reduced to its ledger interaction: the
usage-event append is attempted through the exception-swallowing
`_append_usage_event`, and the method returns
`{"timestamp": event_id, "created_at": ts}` computed up front,
regardless of whether the append committed. -/
def logAnalysis (mac : String → String → String) (key : String) (st : LedgerState)
    (e : EventInput) (storageFails : Bool) : LedgerState × LogAnalysisResult :=
  (appendUsageEventTry mac key st e storageFails,
   { timestamp := e.event_id, created_at := e.ts })

/-- C7 counterexample: on a storage write failure the append does roll
back (the ledger is unchanged), but `log_analysis` returns exactly the
same success-shaped result as on a successful append — the caller is
not told the event was not recorded. -/
theorem c7_caller_not_told :
    (logAnalysis macM "k" emptyLedger sampleEvent true).2
      = (logAnalysis macM "k" emptyLedger sampleEvent false).2
    ∧ (logAnalysis macM "k" emptyLedger sampleEvent true).1 = emptyLedger
    ∧ (logAnalysis macM "k" emptyLedger sampleEvent false).1 ≠ emptyLedger := by
  decide

/-- C7 (amended): an append hitting a storage write failure rolls back
fully — the `usage_events` rows and every `usage_meta` key are
unchanged — but the failure is only printed: `log_analysis` returns
the same result record whether or not the append failed, so the caller
is not informed. -/
theorem c7_rollback_but_silent (mac : String → String → String) (key : String)
    (st : LedgerState) (e : EventInput) :
    (logAnalysis mac key st e true).1 = st
    ∧ (logAnalysis mac key st e true).2 = (logAnalysis mac key st e false).2 :=
  ⟨rfl, rfl⟩

/-- One row of `PRICING_TABLE`: base monthly fee, included quota, and
overage rate per 1000 calls, in USD. -/
structure PricingCfg where
  base_monthly_usd : ℚ
  included_quota : Int
  overage_per_1k_usd : ℚ
deriving DecidableEq, Repr

/-- The fixed three-tier pricing table of `c3_dashboard.py`. -/
def PRICING_TABLE : List (String × PricingCfg) :=
  [("LITE", { base_monthly_usd := 99, included_quota := 5000, overage_per_1k_usd := 6 }),
   ("PRO", { base_monthly_usd := 499, included_quota := 50000, overage_per_1k_usd := 3 }),
   ("ENTERPRISE",
    { base_monthly_usd := 1999, included_quota := 500000, overage_per_1k_usd := 9 / 5 })]

/-- `PRICING_TABLE.get(tier.upper(), PRICING_TABLE["PRO"])`. -/
def tierConfig (tier : String) : PricingCfg :=
  (PRICING_TABLE.lookup (pyUpper tier)).getD
    { base_monthly_usd := 499, included_quota := 50000, overage_per_1k_usd := 3 }

/-- Python `round(x, 2)` on the exact rational values arising here.
Python rounds floats half-to-even while `round` on `ℚ` rounds half away
from zero; the two agree except at exact half-cent ties, which none of
the billing formulas' specified inputs produce. -/
def round2 (x : ℚ) : ℚ := (round (x * 100) : ℚ) / 100

/-- Output of `_build_cost_estimate`. -/
structure CostEstimate where
  base_monthly_usd : ℚ
  included_quota : Int
  overage_count : Int
  overage_fee_usd : ℚ
  projected_total_usd : ℚ
  quota_progress : ℚ
deriving DecidableEq, Repr

/-- `_build_cost_estimate(tier, usage_count, quota_limit)`. -/
def buildCostEstimate (tier : String) (usage_count quota_limit : Int) : CostEstimate :=
  let cfg := tierConfig tier
  let included_quota := cfg.included_quota
  let effective_quota := max quota_limit included_quota
  let overage := max 0 (usage_count - effective_quota)
  let overage_units : ℚ := (overage : ℚ) / 1000
  let overage_fee := round2 (overage_units * cfg.overage_per_1k_usd)
  let projected_total := round2 (cfg.base_monthly_usd + overage_fee)
  let quota_progress : ℚ :=
    if effective_quota ≤ 0 then 0 else min 1 ((usage_count : ℚ) / (effective_quota : ℚ))
  { base_monthly_usd := cfg.base_monthly_usd
    included_quota := effective_quota
    overage_count := overage
    overage_fee_usd := overage_fee
    projected_total_usd := projected_total
    quota_progress := quota_progress }

/-- C6: the billing engine computes
`effective_quota = max(quota_limit, tier.included_quota)`,
`overage = max(0, usage_count - effective_quota)`,
`overage_fee = round(overage / 1000 * tier.overage_rate_per_1k, 2)`,
`projected_total = round(tier.base_fee + overage_fee, 2)` and
`quota_progress = 0 if effective_quota <= 0 else
min(1.0, usage_count / effective_quota)`; for tier PRO with
`usage_count = 52500` and `quota_limit = 0` this yields
`effective_quota = 50000`, `overage = 2500`, `overage_fee = 7.50`,
`projected_total = 506.50`. -/
theorem c6_quota_math :
    (∀ (tier : String) (usage_count quota_limit : Int),
      (buildCostEstimate tier usage_count quota_limit).included_quota
          = max quota_limit (tierConfig tier).included_quota
      ∧ (buildCostEstimate tier usage_count quota_limit).overage_count
          = max 0 (usage_count - max quota_limit (tierConfig tier).included_quota)
      ∧ (buildCostEstimate tier usage_count quota_limit).overage_fee_usd
          = round2 (((max 0 (usage_count - max quota_limit (tierConfig tier).included_quota) : Int) : ℚ)
              / 1000 * (tierConfig tier).overage_per_1k_usd)
      ∧ (buildCostEstimate tier usage_count quota_limit).projected_total_usd
          = round2 ((tierConfig tier).base_monthly_usd
              + (buildCostEstimate tier usage_count quota_limit).overage_fee_usd)
      ∧ (buildCostEstimate tier usage_count quota_limit).quota_progress
          = (if max quota_limit (tierConfig tier).included_quota ≤ 0 then (0 : ℚ)
             else min 1 ((usage_count : ℚ)
               / ((max quota_limit (tierConfig tier).included_quota : Int) : ℚ))))
    ∧ ((buildCostEstimate "PRO" 52500 0).included_quota = 50000
      ∧ (buildCostEstimate "PRO" 52500 0).overage_count = 2500
      ∧ (buildCostEstimate "PRO" 52500 0).overage_fee_usd = 15 / 2
      ∧ (buildCostEstimate "PRO" 52500 0).projected_total_usd = 1013 / 2) := by
  constructor
  · intro tier usage_count quota_limit
    exact ⟨rfl, rfl, rfl, rfl, rfl⟩
  · refine ⟨rfl, rfl, ?_, ?_⟩
    · show round2 (((2500 : Int) : ℚ) / 1000 * 3) = 15 / 2
      norm_num [round2]
    · show round2 (499 + round2 (((2500 : Int) : ℚ) / 1000 * 3)) = 1013 / 2
      norm_num [round2]

/-- Per-operator session state kept by `_render_login`: failed-attempt
counter, lockout deadline, authentication flag and timestamp. -/
structure SessionState where
  failed_attempts : Nat
  locked_until : ℚ
  authed : Bool
  authed_at : ℚ
deriving DecidableEq, Repr

/-- Fresh session: no failures, no lockout, not authenticated. -/
def initialSession : SessionState :=
  { failed_attempts := 0, locked_until := 0, authed := false, authed_at := 0 }

/-- Outcome reported to the operator by one login submission. -/
inductive LoginOutcome where
  | lockedOut
  | success
  | invalidPassword
  | lockedNow
deriving DecidableEq, Repr

/-- One submission of the login form in `_render_login`: reject
immediately while a lockout is active (`now < locked_until`), otherwise
verify the candidate via `_verify_admin_secret` (abstracted as
`verify`); on success authenticate and clear counters, on failure
increment the failed-attempt counter and, once it reaches
`maxAttempts`, reset it and arm `locked_until = now + lockoutSeconds`. -/
def loginAttempt (verify : String → Bool) (maxAttempts : Nat) (lockoutSeconds : ℚ)
    (st : SessionState) (now : ℚ) (pwd : String) : SessionState × LoginOutcome :=
  if now < st.locked_until then
    (st, LoginOutcome.lockedOut)
  else if verify pwd then
    ({ failed_attempts := 0, locked_until := 0, authed := true, authed_at := now },
     LoginOutcome.success)
  else
    let failed := st.failed_attempts + 1
    if maxAttempts ≤ failed then
      ({ st with failed_attempts := 0, locked_until := now + lockoutSeconds },
       LoginOutcome.lockedNow)
    else
      ({ st with failed_attempts := failed }, LoginOutcome.invalidPassword)

/-- C8: with `max_attempts = 5`, five consecutive failed logins from a
fresh session arm a lockout of `lockoutSeconds` from the time of the
fifth failure and reset the failed-attempt counter to zero; while
`now < locked_until` any attempt is rejected without the candidate
secret being compared (the outcome is independent of the verifier);
once `locked_until` has passed, an attempt with the correct secret
authenticates. -/
theorem c8_lockout (verify verify2 : String → Bool) (lockoutSeconds : ℚ)
    (t1 t2 t3 t4 t5 now now6 : ℚ) (p1 p2 p3 p4 p5 pwd pwd6 : String)
    (st : SessionState)
    (h1 : 0 ≤ t1) (h2 : 0 ≤ t2) (h3 : 0 ≤ t3) (h4 : 0 ≤ t4) (h5 : 0 ≤ t5)
    (hv1 : verify p1 = false) (hv2 : verify p2 = false) (hv3 : verify p3 = false)
    (hv4 : verify p4 = false) (hv5 : verify p5 = false) :
    ((loginAttempt verify 5 lockoutSeconds
        (loginAttempt verify 5 lockoutSeconds
          (loginAttempt verify 5 lockoutSeconds
            (loginAttempt verify 5 lockoutSeconds
              (loginAttempt verify 5 lockoutSeconds initialSession t1 p1).1
              t2 p2).1
            t3 p3).1
          t4 p4).1
        t5 p5).1.locked_until = t5 + lockoutSeconds
      ∧ (loginAttempt verify 5 lockoutSeconds
          (loginAttempt verify 5 lockoutSeconds
            (loginAttempt verify 5 lockoutSeconds
              (loginAttempt verify 5 lockoutSeconds
                (loginAttempt verify 5 lockoutSeconds initialSession t1 p1).1
                t2 p2).1
              t3 p3).1
            t4 p4).1
          t5 p5).1.failed_attempts = 0)
    ∧ (now < st.locked_until →
        loginAttempt verify 5 lockoutSeconds st now pwd6 = (st, LoginOutcome.lockedOut)
        ∧ loginAttempt verify 5 lockoutSeconds st now pwd6
            = loginAttempt verify2 5 lockoutSeconds st now pwd6)
    ∧ (st.locked_until ≤ now6 → verify pwd = true →
        (loginAttempt verify 5 lockoutSeconds st now6 pwd).2 = LoginOutcome.success
        ∧ (loginAttempt verify 5 lockoutSeconds st now6 pwd).1.authed = true) := by
  refine ⟨?_, ?_, ?_⟩
  · simp [loginAttempt, initialSession, hv1, hv2, hv3, hv4, hv5,
      not_lt.mpr h1, not_lt.mpr h2, not_lt.mpr h3, not_lt.mpr h4, not_lt.mpr h5]
  · intro h
    constructor
    · simp [loginAttempt, h]
    · simp [loginAttempt, h]
  · intro h hv
    constructor <;> simp [loginAttempt, not_lt.mpr h, hv]

/-- Concrete instance of `c8_lockout`: five wrong passwords at times
0..4 lock the session until `4 + 900`; an attempt at time 3 against a
session locked until 10 is rejected for any verifier; at time 12 the
correct password authenticates. -/
theorem c8_lockout_witness :
    ((loginAttempt (fun s => s == "Good#Pass123") 5 900
        (loginAttempt (fun s => s == "Good#Pass123") 5 900
          (loginAttempt (fun s => s == "Good#Pass123") 5 900
            (loginAttempt (fun s => s == "Good#Pass123") 5 900
              (loginAttempt (fun s => s == "Good#Pass123") 5 900 initialSession 0 "w1").1
              1 "w2").1
            2 "w3").1
          3 "w4").1
        4 "w5").1.locked_until = 4 + 900)
    ∧ (loginAttempt (fun s => s == "Good#Pass123") 5 900
        { failed_attempts := 0, locked_until := 10, authed := false, authed_at := 0 }
        3 "w6"
      = ({ failed_attempts := 0, locked_until := 10, authed := false, authed_at := 0 },
         LoginOutcome.lockedOut))
    ∧ (loginAttempt (fun s => s == "Good#Pass123") 5 900
        { failed_attempts := 0, locked_until := 10, authed := false, authed_at := 0 }
        12 "Good#Pass123").2 = LoginOutcome.success := by
  have h := c8_lockout (fun s => s == "Good#Pass123") (fun _ => true) 900
    0 1 2 3 4 3 12 "w1" "w2" "w3" "w4" "w5" "Good#Pass123" "w6"
    { failed_attempts := 0, locked_until := 10, authed := false, authed_at := 0 }
    (by norm_num) (by norm_num) (by norm_num) (by norm_num) (by norm_num)
    (by decide) (by decide) (by decide) (by decide) (by decide)
  exact ⟨h.1.1, (h.2.1 (by norm_num)).1, (h.2.2 (by norm_num) (by decide)).1⟩

end Continuum
